import Mathlib

/-!
Verification of the pthreads real-time scheduling benchmark (src/p3.cpp).

The file embeds the program shallowly: OS calls (mlockall, pthread_create,
pthread_join, gettimeofday, strerror) are parameters supplying their results,
and main's observable behaviour is a trace of events.
-/

namespace P3

/-- Linux scheduling-policy constants from sched.h, as used by p3.cpp. -/
def SCHED_OTHER : Int := 0

/-- Constant SCHED_FIFO of sched.h. -/
def SCHED_FIFO : Int := 1

/-- Constant SCHED_RR of sched.h. -/
def SCHED_RR : Int := 2

/-- Constant PTHREAD_INHERIT_SCHED of pthread.h. -/
def PTHREAD_INHERIT_SCHED : Int := 0

/-- Constant PTHREAD_EXPLICIT_SCHED of pthread.h. -/
def PTHREAD_EXPLICIT_SCHED : Int := 1

/-- Compile-time flag, p3.cpp line 9: `#define SET_CPU false`. -/
def SET_CPU : Bool := false

/-- Embeds setCPU (p3.cpp lines 18-24): CPU_ZERO then CPU_SET(cpu_id) yields
the affinity set containing exactly cpu_id. -/
def setCPU (cpu_id : Int) : Finset Int := {cpu_id}

/-- Affinity established by the RT thread body RunThreadRT (p3.cpp lines 32-35):
the setCPU call is inside `#if SET_CPU ... #endif`, so it runs only when the
compile-time flag SET_CPU is true; otherwise no affinity is set. -/
def runThreadRTAffinity : Option (Finset Int) :=
  if SET_CPU then some (setCPU 1) else none

/-- Affinity established by the NRT thread body RunThreadNRT (p3.cpp
lines 127-130), guarded by the same compile-time flag. -/
def runThreadNRTAffinity : Option (Finset Int) :=
  if SET_CPU then some (setCPU 1) else none

/-- Embeds struct timeval (seconds and microseconds, both C longs). -/
structure Timeval where
  tv_sec : Int
  tv_usec : Int
deriving DecidableEq

/-- Wall-clock order on timevals. -/
def timevalLe (a b : Timeval) : Prop :=
  a.tv_sec < b.tv_sec ∨ (a.tv_sec = b.tv_sec ∧ a.tv_usec ≤ b.tv_usec)

instance (a b : Timeval) : Decidable (timevalLe a b) :=
  decidable_of_iff
    (a.tv_sec < b.tv_sec ∨ (a.tv_sec = b.tv_sec ∧ a.tv_usec ≤ b.tv_usec)) Iff.rfl

/-- A normalized timeval as produced by gettimeofday has tv_usec in
[0, 1000000). -/
def usecValid (t : Timeval) : Prop :=
  0 ≤ t.tv_usec ∧ t.tv_usec < 1000000

instance (t : Timeval) : Decidable (usecValid t) :=
  decidable_of_iff (0 ≤ t.tv_usec ∧ t.tv_usec < 1000000) Iff.rfl

/-- Elapsed-time computation shared by ThreadRT::Join (p3.cpp lines 112-114)
and ThreadNRT::Join (lines 161-163): `seconds + micros * 1e-6`, with the two
differences taken in C long arithmetic; the real-number value is modelled
exactly in the rationals. -/
def elapsedTime (start_time end_time : Timeval) : ℚ :=
  ((end_time.tv_sec - start_time.tv_sec : Int) : ℚ)
    + ((end_time.tv_usec - start_time.tv_usec : Int) : ℚ) * (1 / 1000000)

/-- Embeds the pthread attribute fields that ThreadRT::Start touches. -/
structure PthreadAttr where
  schedpolicy : Int
  sched_priority : Int
  stacksize : Nat
  inheritsched : Int
deriving DecidableEq

/-- Attribute defaults established by pthread_attr_init on Linux: policy
SCHED_OTHER, priority 0, 8 MiB stack, inherited scheduling. -/
def pthreadAttrDefault : PthreadAttr :=
  { schedpolicy := SCHED_OTHER, sched_priority := 0,
    stacksize := 8388608, inheritsched := PTHREAD_INHERIT_SCHED }

/-- Embeds ThreadRT::Start (p3.cpp lines 69-99). Parameters supply the OS
results: `now` is what gettimeofday reports, `createRet` is pthread_create's
return value, `strerror` is the C library's error-string table. On success it
returns the attributes the thread was created with and the recorded start
timestamp; on failure it throws (models the std::runtime_error). -/
def ThreadRT.Start (strerror : Int → String) (priority_ policy_ : Int)
    (now : Timeval) (createRet : Int) : Except String (PthreadAttr × Timeval) :=
  let a1 := { pthreadAttrDefault with schedpolicy := policy_ }
  let a2 := { a1 with sched_priority := priority_ }
  let a3 := { a2 with stacksize := 1024 * 1024 }
  let a4 := { a3 with inheritsched := PTHREAD_EXPLICIT_SCHED }
  let start_time := now
  if createRet ≠ 0 then
    Except.error ("pthread_create failed: " ++ strerror createRet)
  else
    Except.ok (a4, start_time)

/-- Embeds ThreadRT::Join (p3.cpp lines 101-118). `joinRet` is pthread_join's
return value; on failure Join throws, on success it reports the app id and
the elapsed time computed from the two timestamps. -/
def ThreadRT.Join (strerror : Int → String) (app_id_ joinRet : Int)
    (start_time end_time : Timeval) : Except String (Int × ℚ) :=
  if joinRet ≠ 0 then
    Except.error ("pthread_join failed: " ++ strerror joinRet)
  else
    Except.ok (app_id_, elapsedTime start_time end_time)

/-- Embeds ThreadNRT::Join (p3.cpp lines 153-167). The pthread_join return
value is discarded by the source (line 155 does not bind it), so the report is
produced unconditionally. -/
def ThreadNRT.Join (app_id_ joinRet : Int)
    (start_time end_time : Timeval) : Except String (Int × ℚ) :=
  Except.ok (app_id_, elapsedTime start_time end_time)

/-- Embeds LockMemory (p3.cpp lines 11-16): throws when mlockall reports
failure, with strerror(errno) in the message. -/
def LockMemory (strerror : Int → String) (mlockallRet errnoVal : Int) :
    Except String Unit :=
  if mlockallRet ≠ 0 then
    Except.error ("mlockall failed: " ++ strerror errnoVal)
  else
    Except.ok ()

/-- The thread handles main constructs: AppTypeX is a ThreadRT with app id,
priority and policy (p3.cpp lines 172-181); AppTypeY is a ThreadNRT with only
an app id (lines 183-192). -/
inductive HandleSpec where
  | appTypeX (app_id priority policy : Int)
  | appTypeY (app_id : Int)
deriving DecidableEq

/-- App id of a handle. -/
def HandleSpec.appId : HandleSpec → Int
  | .appTypeX a _ _ => a
  | .appTypeY a => a

/-- Thread kind of a handle: RealTime or Standard. -/
inductive Kind where
  | realTime
  | standard
deriving DecidableEq

/-- AppTypeX handles are RealTime, AppTypeY handles are Standard. -/
def HandleSpec.kind : HandleSpec → Kind
  | .appTypeX _ _ _ => .realTime
  | .appTypeY _ => .standard

/-- Observable events of a run of main. -/
inductive Event where
  | warn (msg : String)
  | lock
  | print (msg : String)
  | construct (h : HandleSpec)
  | start (app_id : Int)
  | join (app_id : Int)
deriving DecidableEq

/-- Embeds C atoi digit accumulation. -/
def atoiLoop : List Char → Int → Int
  | [], acc => acc
  | c :: cs, acc =>
    if c.isDigit then atoiLoop cs (acc * 10 + ((c.toNat : Int) - ('0'.toNat : Int)))
    else acc

/-- C isspace on the characters atoi skips. -/
def isSpaceC (c : Char) : Bool :=
  c == ' ' || c == '\t' || c == '\n' || c == '\x0b' || c == '\x0c' || c == '\r'

/-- Embeds C atoi: skip whitespace, optional sign, then digits; a string with
no leading numeric part yields 0. -/
def atoi (s : String) : Int :=
  match s.toList.dropWhile isSpaceC with
  | '-' :: cs => - atoiLoop cs 0
  | '+' :: cs => atoiLoop cs 0
  | cs => atoiLoop cs 0

/-- The scenario identifier main computes (p3.cpp lines 195-200): initialized
to 4; replaced by atoi(argv[1]) when an argument is present. -/
def expIdOf (args : List String) : Int :=
  match args with
  | [] => 4
  | a :: _ => atoi a

/-- Embeds the scenario dispatch of main (p3.cpp lines 204-281): each branch
prints its description, constructs its three handles, starts them in order,
then joins them in the same order; an unmatched identifier prints the
NOT FOUND message. -/
def mainBody (exp_id : Int) : List Event :=
  if exp_id = 0 then
    [Event.print "Experiment 1: One CannyP3 APP (RT) and Two any-type APPs (NRT), All running on CPU=1\n",
     Event.construct (HandleSpec.appTypeX 1 80 SCHED_FIFO),
     Event.construct (HandleSpec.appTypeY 2),
     Event.construct (HandleSpec.appTypeY 3),
     Event.start 1, Event.start 2, Event.start 3,
     Event.join 1, Event.join 2, Event.join 3]
  else if exp_id = 1 then
    [Event.print "Experiment 2: Same workload as 1, but freely run on available CPUs\n",
     Event.construct (HandleSpec.appTypeX 1 80 SCHED_FIFO),
     Event.construct (HandleSpec.appTypeY 2),
     Event.construct (HandleSpec.appTypeY 3),
     Event.start 1, Event.start 2, Event.start 3,
     Event.join 1, Event.join 2, Event.join 3]
  else if exp_id = 2 then
    [Event.print "Experiment 3: Two any-type APPs (same priority, SCHED_FIFO) in RT and One any-type APP (NRT), All running on CPU=1\n",
     Event.construct (HandleSpec.appTypeX 1 80 SCHED_FIFO),
     Event.construct (HandleSpec.appTypeX 2 80 SCHED_FIFO),
     Event.construct (HandleSpec.appTypeY 3),
     Event.start 1, Event.start 2, Event.start 3,
     Event.join 1, Event.join 2, Event.join 3]
  else if exp_id = 3 then
    [Event.print "Experiment 4: Two any-type APPs (same priority, SCHED_RR) in RT and One any-type APP (NRT), All running on CPU=1\n",
     Event.construct (HandleSpec.appTypeX 1 80 SCHED_RR),
     Event.construct (HandleSpec.appTypeX 2 80 SCHED_RR),
     Event.construct (HandleSpec.appTypeY 3),
     Event.start 1, Event.start 2, Event.start 3,
     Event.join 1, Event.join 2, Event.join 3]
  else if exp_id = 4 then
    [Event.print "Experiment 5: Same workload as 3, but freely run on available CPUs\n",
     Event.construct (HandleSpec.appTypeX 1 80 SCHED_FIFO),
     Event.construct (HandleSpec.appTypeX 2 80 SCHED_FIFO),
     Event.construct (HandleSpec.appTypeY 3),
     Event.start 1, Event.start 2, Event.start 3,
     Event.join 1, Event.join 2, Event.join 3]
  else
    [Event.print "ERROR: exp_id NOT FOUND\n"]

/-- Embeds main (p3.cpp lines 194-284): parse the argument (warning when
absent), call LockMemory, then dispatch. Returns the event trace and the
process outcome: ok 0 on the normal path, error when LockMemory's exception
escapes (no further event happens in that case). -/
def mainRun (strerror : Int → String) (mlockallRet errnoVal : Int)
    (args : List String) : List Event × Except String Int :=
  let pre : List Event :=
    match args with
    | [] => [Event.warn "WARNING: default exp_id=0\n"]
    | _ :: _ => []
  match LockMemory strerror mlockallRet errnoVal with
  | Except.error e => (pre, Except.error e)
  | Except.ok _ => (pre ++ Event.lock :: mainBody (expIdOf args), Except.ok 0)

/-- Handles constructed in a trace, in order. -/
def constructsOf (t : List Event) : List HandleSpec :=
  t.filterMap fun e =>
    match e with
    | Event.construct h => some h
    | _ => none

/-- App ids started in a trace, in order. -/
def startsOf (t : List Event) : List Int :=
  t.filterMap fun e =>
    match e with
    | Event.start a => some a
    | _ => none

/-- App ids joined in a trace, in order. -/
def joinsOf (t : List Event) : List Int :=
  t.filterMap fun e =>
    match e with
    | Event.join a => some a
    | _ => none

/-- Warnings emitted in a trace. -/
def warnsOf (t : List Event) : List String :=
  t.filterMap fun e =>
    match e with
    | Event.warn m => some m
    | _ => none

/-- Whether an event is the memory-lock event. -/
def isLock : Event → Bool
  | Event.lock => true
  | _ => false

/-- Whether an event starts a thread. -/
def isStart : Event → Bool
  | Event.start _ => true
  | _ => false

/-- Number of memory-lock events in a trace. -/
def lockCount (t : List Event) : Nat :=
  (t.filter isLock).length

/-- Events preceding the first memory-lock event of a trace. -/
def beforeFirstLock (t : List Event) : List Event :=
  t.takeWhile fun e => !(isLock e)

/-- The scenario bodies contain no memory-lock event: locking happens only in
main, before the dispatch. -/
theorem mainBody_lock_free (e : Int) : List.filter isLock (mainBody e) = [] := by
  unfold mainBody
  split_ifs <;> rfl

/-- C1: the claim says threads of scenarios 0, 2 and 3 are pinned to CPU 1,
but the compiled program has SET_CPU = false (p3.cpp line 9), so the setCPU
call in both thread bodies is compiled out and no thread of any scenario ever
sets an affinity — including the three threads of scenario 0, whose printed
description nevertheless says they all run on CPU 1. -/
theorem c1_affinity_never_set :
    SET_CPU = false ∧
    runThreadRTAffinity = none ∧ runThreadNRTAffinity = none ∧
    constructsOf (mainBody 0) =
      [HandleSpec.appTypeX 1 80 SCHED_FIFO, HandleSpec.appTypeY 2,
       HandleSpec.appTypeY 3] :=
  ⟨rfl, rfl, rfl, rfl⟩

/-- C2 counterexample: the per-thread kinds of scenario 0 (RealTime, Standard,
Standard) differ from those of scenario 4 (RealTime, RealTime, Standard), so
the two mixes are not identical in per-thread kind. -/
theorem c2_scenario0_differs_from_scenario4 :
    List.map HandleSpec.kind (constructsOf (mainBody 0))
      ≠ List.map HandleSpec.kind (constructsOf (mainBody 4)) := by
  decide

/-- C2 amended: scenario 4 constructs exactly the same handle mix (count,
kind, priority, policy) as scenario 2, and that mix has three handles; it is
scenario 2, not scenario 0, that scenario 4 matches. -/
theorem c2_scenario4_matches_scenario2 :
    constructsOf (mainBody 4) = constructsOf (mainBody 2) ∧
    List.length (constructsOf (mainBody 4)) = 3 :=
  ⟨rfl, rfl⟩

/-- C3 counterexample: with a failing OS join (pthread_join returning
ESRCH = 3), ThreadNRT::Join still reports success — the return value is
discarded at p3.cpp line 155, so the failure is silently ignored. -/
theorem c3_nrt_join_ignores_failure :
    (3 : Int) ≠ 0 ∧
    ThreadNRT.Join 3 3 ⟨0, 0⟩ ⟨0, 1⟩
      = Except.ok (3, elapsedTime ⟨0, 0⟩ ⟨0, 1⟩) :=
  ⟨by decide, rfl⟩

/-- C3 amended: only RealTime handles surface a failing OS join — ThreadRT's
Join throws a ThreadJoinError carrying the OS reason whenever pthread_join
returns nonzero — while Standard handles discard the pthread_join return
value and always report success. -/
theorem c3_rt_join_surfaces_failure (strerror : Int → String)
    (app_id_ joinRet : Int) (t0 t1 : Timeval) (h : joinRet ≠ 0) :
    ThreadRT.Join strerror app_id_ joinRet t0 t1
      = Except.error ("pthread_join failed: " ++ strerror joinRet) ∧
    ∀ a r u v, ∃ q, ThreadNRT.Join a r u v = Except.ok (a, q) := by
  refine ⟨by simp [ThreadRT.Join, h], fun a r u v => ⟨elapsedTime u v, rfl⟩⟩

/-- Witness for c3_rt_join_surfaces_failure at joinRet = 3. -/
theorem c3_rt_join_surfaces_failure_witness :
    ThreadRT.Join (fun _ => "No such process") 1 3 ⟨0, 0⟩ ⟨1, 0⟩
      = Except.error ("pthread_join failed: " ++ "No such process") :=
  (c3_rt_join_surfaces_failure (fun _ => "No such process") 1 3 ⟨0, 0⟩ ⟨1, 0⟩
    (by decide)).1

/-- C4: when the computed scenario identifier is outside the catalog
(nothing in 0..4), the run constructs no handle and starts no thread, prints
the NOT FOUND message, and main still returns 0. -/
theorem c4_unknown_scenario_is_noop (strerror : Int → String) (errnoVal : Int)
    (args : List String)
    (h0 : expIdOf args ≠ 0) (h1 : expIdOf args ≠ 1) (h2 : expIdOf args ≠ 2)
    (h3 : expIdOf args ≠ 3) (h4 : expIdOf args ≠ 4) :
    (mainRun strerror 0 errnoVal args).2 = Except.ok 0 ∧
    constructsOf (mainRun strerror 0 errnoVal args).1 = [] ∧
    startsOf (mainRun strerror 0 errnoVal args).1 = [] ∧
    Event.print "ERROR: exp_id NOT FOUND\n" ∈ (mainRun strerror 0 errnoVal args).1 := by
  have hb : mainBody (expIdOf args) = [Event.print "ERROR: exp_id NOT FOUND\n"] := by
    unfold mainBody
    simp [h0, h1, h2, h3, h4]
  rcases args with _ | ⟨a, rest⟩ <;>
    simp_all [mainRun, LockMemory, constructsOf, startsOf]

/-- Witness for c4_unknown_scenario_is_noop with argument "99". -/
theorem c4_unknown_scenario_is_noop_witness :
    (mainRun (fun _ => "") 0 0 ["99"]).2 = Except.ok 0 ∧
    constructsOf (mainRun (fun _ => "") 0 0 ["99"]).1 = [] ∧
    startsOf (mainRun (fun _ => "") 0 0 ["99"]).1 = [] ∧
    Event.print "ERROR: exp_id NOT FOUND\n" ∈ (mainRun (fun _ => "") 0 0 ["99"]).1 :=
  c4_unknown_scenario_is_noop (fun _ => "") 0 ["99"]
    (by decide) (by decide) (by decide) (by decide) (by decide)

/-- C5: every catalogued scenario body prints its description, constructs
exactly three handles with app ids 1, 2, 3, then starts all of them in
specification order, then joins all of them in the same order, so the join
calls equal the start calls in number and order. -/
theorem c5_start_join_discipline (e : Int)
    (h : e = 0 ∨ e = 1 ∨ e = 2 ∨ e = 3 ∨ e = 4) :
    ∃ d hs, List.length hs = 3 ∧
      List.map HandleSpec.appId hs = [1, 2, 3] ∧
      mainBody e = Event.print d ::
        (List.map Event.construct hs
          ++ List.map (fun h0 => Event.start (HandleSpec.appId h0)) hs
          ++ List.map (fun h0 => Event.join (HandleSpec.appId h0)) hs) ∧
      startsOf (mainBody e) = joinsOf (mainBody e) := by
  rcases h with rfl | rfl | rfl | rfl | rfl
  · exact ⟨_, [HandleSpec.appTypeX 1 80 SCHED_FIFO, HandleSpec.appTypeY 2,
      HandleSpec.appTypeY 3], rfl, rfl, rfl, rfl⟩
  · exact ⟨_, [HandleSpec.appTypeX 1 80 SCHED_FIFO, HandleSpec.appTypeY 2,
      HandleSpec.appTypeY 3], rfl, rfl, rfl, rfl⟩
  · exact ⟨_, [HandleSpec.appTypeX 1 80 SCHED_FIFO,
      HandleSpec.appTypeX 2 80 SCHED_FIFO, HandleSpec.appTypeY 3],
      rfl, rfl, rfl, rfl⟩
  · exact ⟨_, [HandleSpec.appTypeX 1 80 SCHED_RR,
      HandleSpec.appTypeX 2 80 SCHED_RR, HandleSpec.appTypeY 3],
      rfl, rfl, rfl, rfl⟩
  · exact ⟨_, [HandleSpec.appTypeX 1 80 SCHED_FIFO,
      HandleSpec.appTypeX 2 80 SCHED_FIFO, HandleSpec.appTypeY 3],
      rfl, rfl, rfl, rfl⟩

/-- Witness for c5_start_join_discipline at scenario 0. -/
theorem c5_start_join_discipline_witness :
    ∃ d hs, List.length hs = 3 ∧
      List.map HandleSpec.appId hs = [1, 2, 3] ∧
      mainBody 0 = Event.print d ::
        (List.map Event.construct hs
          ++ List.map (fun h0 => Event.start (HandleSpec.appId h0)) hs
          ++ List.map (fun h0 => Event.join (HandleSpec.appId h0)) hs) ∧
      startsOf (mainBody 0) = joinsOf (mainBody 0) :=
  c5_start_join_discipline 0 (Or.inl rfl)

/-- C6: the memory lock is attempted before any dispatch; when mlockall fails,
main's LockMemory exception escapes, no handle is started and no lock event
happens; when it succeeds, the lock event occurs exactly once and no
thread-start event precedes it. -/
theorem c6_lock_once_before_any_start (strerror : Int → String)
    (ret errnoVal : Int) (args : List String) :
    (ret ≠ 0 →
      (mainRun strerror ret errnoVal args).2
        = Except.error ("mlockall failed: " ++ strerror errnoVal) ∧
      startsOf (mainRun strerror ret errnoVal args).1 = [] ∧
      lockCount (mainRun strerror ret errnoVal args).1 = 0) ∧
    (ret = 0 →
      lockCount (mainRun strerror ret errnoVal args).1 = 1 ∧
      List.all (beforeFirstLock (mainRun strerror ret errnoVal args).1)
        (fun ev => !(isStart ev)) = true) := by
  constructor
  · intro h
    rcases args with _ | ⟨a, rest⟩ <;>
      simp [mainRun, LockMemory, h, startsOf, lockCount, isLock, isStart]
  · intro h
    subst h
    have hfree := mainBody_lock_free (expIdOf args)
    rcases args with _ | ⟨a, rest⟩ <;>
      simp_all [mainRun, LockMemory, lockCount, beforeFirstLock, isLock,
        isStart, List.filter_append]

/-- Witness for c6_lock_once_before_any_start: the failing branch at
mlockall returning -1 and the succeeding branch at 0. -/
theorem c6_lock_once_before_any_start_witness :
    startsOf (mainRun (fun _ => "Cannot allocate memory") (-1) 12 []).1 = [] ∧
    lockCount (mainRun (fun _ => "") 0 0 ["2"]).1 = 1 :=
  ⟨((c6_lock_once_before_any_start (fun _ => "Cannot allocate memory")
      (-1) 12 []).1 (by decide)).2.1,
   ((c6_lock_once_before_any_start (fun _ => "") 0 0 ["2"]).2 rfl).1⟩

/-- C7: ThreadRT::Start sets the requested policy, the requested priority, a
1 MiB stack and the explicit-scheduling flag on the attributes, records the
start timestamp and spawns the thread; when pthread_create fails it throws a
ThreadCreationError whose message carries strerror of the returned code. -/
theorem c7_rt_start_attributes (strerror : Int → String)
    (priority_ policy_ : Int) (now : Timeval) (createRet : Int) :
    (createRet = 0 →
      ThreadRT.Start strerror priority_ policy_ now createRet
        = Except.ok
            (PthreadAttr.mk policy_ priority_ 1048576 PTHREAD_EXPLICIT_SCHED,
             now)) ∧
    (createRet ≠ 0 →
      ThreadRT.Start strerror priority_ policy_ now createRet
        = Except.error ("pthread_create failed: " ++ strerror createRet)) := by
  constructor <;> intro h <;> simp [ThreadRT.Start, h]

/-- Witness for c7_rt_start_attributes: success at createRet = 0 and failure
at createRet = EPERM = 1. -/
theorem c7_rt_start_attributes_witness :
    ThreadRT.Start (fun _ => "Operation not permitted") 80 SCHED_FIFO ⟨5, 0⟩ 0
      = Except.ok
          (PthreadAttr.mk SCHED_FIFO 80 1048576 PTHREAD_EXPLICIT_SCHED,
           ⟨5, 0⟩) ∧
    ThreadRT.Start (fun _ => "Operation not permitted") 80 SCHED_FIFO ⟨5, 0⟩ 1
      = Except.error ("pthread_create failed: " ++ "Operation not permitted") :=
  ⟨(c7_rt_start_attributes (fun _ => "Operation not permitted") 80 SCHED_FIFO
      ⟨5, 0⟩ 0).1 rfl,
   (c7_rt_start_attributes (fun _ => "Operation not permitted") 80 SCHED_FIFO
      ⟨5, 0⟩ 1).2 (by decide)⟩

/-- C8: on a successful join both handle kinds report the app id together
with the elapsed time (end.tv_sec - start.tv_sec) + (end.tv_usec -
start.tv_usec) * 1/1000000, and when the end timestamp is not before the
start timestamp (both normalized), the reported elapsed time is nonnegative. -/
theorem c8_elapsed_formula_nonneg (strerror : Int → String) (app_id_ : Int)
    (t0 t1 : Timeval) (hle : timevalLe t0 t1)
    (h0 : usecValid t0) (h1 : usecValid t1) :
    ThreadRT.Join strerror app_id_ 0 t0 t1
      = Except.ok (app_id_, elapsedTime t0 t1) ∧
    ThreadNRT.Join app_id_ 0 t0 t1 = Except.ok (app_id_, elapsedTime t0 t1) ∧
    elapsedTime t0 t1
      = ((t1.tv_sec - t0.tv_sec : Int) : ℚ)
          + ((t1.tv_usec - t0.tv_usec : Int) : ℚ) * (1 / 1000000) ∧
    0 ≤ elapsedTime t0 t1 := by
  refine ⟨by simp [ThreadRT.Join], rfl, rfl, ?_⟩
  unfold usecValid at h0 h1
  unfold timevalLe at hle
  unfold elapsedTime
  rcases h0 with ⟨h0a, h0b⟩
  rcases h1 with ⟨h1a, h1b⟩
  rcases hle with hlt | ⟨heq, hus⟩
  · have hs : (1 : ℚ) ≤ ((t1.tv_sec - t0.tv_sec : Int) : ℚ) := by
      exact_mod_cast (by omega : (1 : Int) ≤ t1.tv_sec - t0.tv_sec)
    have hu : (-999999 : ℚ) ≤ ((t1.tv_usec - t0.tv_usec : Int) : ℚ) := by
      exact_mod_cast (by omega : (-999999 : Int) ≤ t1.tv_usec - t0.tv_usec)
    have hmul := mul_le_mul_of_nonneg_right hu
      (by norm_num : (0 : ℚ) ≤ 1 / 1000000)
    linarith
  · have hs : ((t1.tv_sec - t0.tv_sec : Int) : ℚ) = 0 := by
      exact_mod_cast (by omega : t1.tv_sec - t0.tv_sec = (0 : Int))
    have hu : (0 : ℚ) ≤ ((t1.tv_usec - t0.tv_usec : Int) : ℚ) := by
      exact_mod_cast (by omega : (0 : Int) ≤ t1.tv_usec - t0.tv_usec)
    have hmul := mul_nonneg hu (by norm_num : (0 : ℚ) ≤ 1 / 1000000)
    linarith

/-- Witness for c8_elapsed_formula_nonneg at start 0s.999999us, end 1s.0us. -/
theorem c8_elapsed_formula_nonneg_witness :
    ThreadNRT.Join 2 0 ⟨0, 999999⟩ ⟨1, 0⟩
      = Except.ok (2, elapsedTime ⟨0, 999999⟩ ⟨1, 0⟩) ∧
    0 ≤ elapsedTime ⟨0, 999999⟩ ⟨1, 0⟩ :=
  ⟨(c8_elapsed_formula_nonneg (fun _ => "") 2 ⟨0, 999999⟩ ⟨1, 0⟩
      (by decide) (by decide) (by decide)).2.1,
   (c8_elapsed_formula_nonneg (fun _ => "") 2 ⟨0, 999999⟩ ⟨1, 0⟩
      (by decide) (by decide) (by decide)).2.2.2⟩

/-- C9: with no command-line argument the run emits the warning to standard
error, executes scenario 4 (two RealTime FIFO/80 handles and one Standard
handle), returns 0, and — SET_CPU being false — no thread sets an affinity. -/
theorem c9_default_runs_scenario4 (strerror : Int → String) (errnoVal : Int) :
    (mainRun strerror 0 errnoVal []).1
      = Event.warn "WARNING: default exp_id=0\n" :: Event.lock :: mainBody 4 ∧
    (mainRun strerror 0 errnoVal []).2 = Except.ok 0 ∧
    constructsOf (mainBody 4)
      = [HandleSpec.appTypeX 1 80 SCHED_FIFO,
         HandleSpec.appTypeX 2 80 SCHED_FIFO, HandleSpec.appTypeY 3] ∧
    runThreadRTAffinity = none ∧ runThreadNRTAffinity = none :=
  ⟨rfl, rfl, rfl, rfl, rfl⟩

/-- C10: any first argument on which atoi yields 0 (every non-numeric string
does) silently selects scenario 0: no warning is emitted, the NOT FOUND
message is not printed, and scenario 0's three threads are started. -/
theorem c10_nonnumeric_arg_runs_scenario0 (strerror : Int → String)
    (errnoVal : Int) (s : String) (rest : List String) (h : atoi s = 0) :
    (mainRun strerror 0 errnoVal (s :: rest)).1 = Event.lock :: mainBody 0 ∧
    warnsOf (mainRun strerror 0 errnoVal (s :: rest)).1 = [] ∧
    startsOf (mainRun strerror 0 errnoVal (s :: rest)).1 = [1, 2, 3] ∧
    Event.print "ERROR: exp_id NOT FOUND\n"
      ∉ (mainRun strerror 0 errnoVal (s :: rest)).1 := by
  have htr : (mainRun strerror 0 errnoVal (s :: rest)).1
      = Event.lock :: mainBody 0 := by
    simp [mainRun, LockMemory, expIdOf, h]
  refine ⟨htr, ?_, ?_, ?_⟩ <;> rw [htr] <;> decide

/-- Witness for c10_nonnumeric_arg_runs_scenario0 with argument "abc". -/
theorem c10_nonnumeric_arg_runs_scenario0_witness :
    (mainRun (fun _ => "") 0 0 ["abc"]).1 = Event.lock :: mainBody 0 ∧
    startsOf (mainRun (fun _ => "") 0 0 ["abc"]).1 = [1, 2, 3] :=
  ⟨(c10_nonnumeric_arg_runs_scenario0 (fun _ => "") 0 "abc" [] (by decide)).1,
   (c10_nonnumeric_arg_runs_scenario0 (fun _ => "") 0 "abc" [] (by decide)).2.2.1⟩

end P3
